import Mathlib

/-!
# Verification of the mnrva.dev portfolio data and theme utility

Shallow embedding of the repository's static data records (profile,
projects, blog front-matter) and of its one piece of computational logic,
the theme color resolver `textThemeColorTag`.  TypeScript records become
Lean structures; optional fields become `Option`; a TypeScript object
index access `obj[key]`, which yields the value or `undefined`, becomes an
association-list lookup returning `Option`.
-/

/-- A theme's color configuration.  Only the `primary` field is used by
the resolver (`theme.colors.primary`). -/
structure ThemeColors where
  primary : String
deriving Repr, DecidableEq

/-- The process-wide theme configuration object imported as
`@/data/theme` by `src/utils/textThemeColorTag.ts`. -/
structure Theme where
  colors : ThemeColors
deriving Repr, DecidableEq

/-- Modelled from the spec: the theme configuration module `@/data/theme`
is not part of the corpus.  Per the spec's end-to-end scenario, the site's
configured primary color is the supported identifier "primary-blue". -/
def theme : Theme :=
  { colors := { primary := "primary-blue" } }

/-- Modelled from the spec: the constant table `MAP_COLOR_VARIANT_TO_TEXT`
from `src/utils/mapVariants.ts` is not part of the corpus.  Per the spec it
is a fixed finite mapping from the enumerated color identifiers to
text-style tokens, with the supported identifier "primary-blue" mapped to
the token "text-blue-500". -/
def MAP_COLOR_VARIANT_TO_TEXT : List (String × String) :=
  [("primary-blue", "text-blue-500")]

/-- TypeScript object index access `table[key]`: the associated value when
the key is present, `undefined` (here `none`) otherwise. -/
def objLookup (table : List (String × String)) (key : String) : Option String :=
  (table.find? (fun p => p.1 == key)).map (fun p => p.2)

/-- `textThemeColorTag` from `src/utils/textThemeColorTag.ts`:
`return MAP_COLOR_VARIANT_TO_TEXT[theme.colors.primary]`. -/
def textThemeColorTag : Option String :=
  objLookup MAP_COLOR_VARIANT_TO_TEXT theme.colors.primary

/-- The supported enumeration of color identifiers: the keys of the
constant mapping table. -/
def supportedColorIdentifiers : List String :=
  MAP_COLOR_VARIANT_TO_TEXT.map (fun p => p.1)

/-- Front-matter of a blog content document (body text omitted: the
claims concern only the metadata header). -/
structure BlogPost where
  title : String
  publishedAt : String
  description : String
  slug : String
  isPublish : Bool
deriving Repr, DecidableEq

/-- Front-matter of the blog document at `src/unnamed/part_002`, first
document (lines 1-7). -/
def lambdaGoPost : BlogPost :=
  { title := "Creating Serverless Applications with AWS Lambda and Go"
  , publishedAt := "2023-11-23"
  , description := "Learn how to deploy your first AWS Lambda serverless function using Go with this step-by-step guide."
  , slug := "creating-serverless-lambda-go"
  , isPublish := true }

/-- Front-matter of the blog document at `src/unnamed/part_002`, second
document (lines 207-213). -/
def triviaApiPost : BlogPost :=
  { title := "Building a Stateless, Containerized Trivia API in Golang"
  , publishedAt := "2023-12-09"
  , description := "Follow along as I build a stateless trivia API in Go and containerize it with Docker."
  , slug := "stateless-containerized-trivia-api-go"
  , isPublish := true }

/-- The blog corpus: the two documents present in the repository. -/
def allBlogPosts : List BlogPost :=
  [lambdaGoPost, triviaApiPost]

/-- `Project` from `src/data/projects.ts`; `isComingSoon?: boolean`
becomes `Option Bool`, absent by default. -/
structure Project where
  title : String
  techs : List String
  link : String
  isComingSoon : Option Bool := none
deriving Repr, DecidableEq

/-- First entry of the `projects` array in `src/data/projects.ts`. -/
def massflipProject : Project :=
  { title := "Massflip"
  , techs := ["Go", "Vue.js", "AWS", "MongoDB"]
  , link := "https://github.com/gabehf/massflip" }

/-- Second entry of the `projects` array in `src/data/projects.ts`. -/
def costInCoffeeProject : Project :=
  { title := "CostIn.Coffee"
  , techs := ["HTML/CSS/JS", "jQuery"]
  , link := "https://costin.coffee" }

/-- Third entry of the `projects` array in `src/data/projects.ts`. -/
def budgetBuddyProject : Project :=
  { title := "Budget Buddy"
  , techs := ["React", "Go", "MongoDB"]
  , link := "https://github.com/gabehf/budgetbuddy" }

/-- The `projects` list from `src/data/projects.ts`. -/
def projects : List Project :=
  [massflipProject, costInCoffeeProject, budgetBuddyProject]

/-- `Social` record: a display label and a destination URL. -/
structure Social where
  label : String
  link : String
deriving Repr, DecidableEq

/-- `Presentation` record; the optional `profile?: string` field becomes
`Option String`, absent by default. -/
structure Presentation where
  mail : String
  title : String
  description : String
  socials : List Social
  profile : Option String := none
deriving Repr, DecidableEq

/-- The single social link appearing in both presentation versions. -/
def githubSocial : Social :=
  { label := "View my GitHub", link := "https://github.com/gabehf" }

/-- The `presentation` record of `src/unnamed/part_000`.  The TypeScript
source spells the description with backslash line continuations, which
keep each continuation line's five leading spaces in the string; the
`profile` field is commented out, hence absent. -/
def presentation_v0 : Presentation :=
  { mail := "gabe@mnrva.dev"
  , title := "Hey, I’m Gabe 👋"
  , description := "I\x27m a *full stack developer* with about one year of professional experience.     You will often find me working with *Go, NodeJS and Ruby*. I love     to spend my time learning everything I can about emerging technologies in *cloud computing* and     *API development*. When I\x27m not working, I play guitar and am an avid gamer."
  , socials := [githubSocial] }

/-- The `presentation` record of `src/unnamed/part_001`: identical to the
`part_000` version except for the description text. -/
def presentation_v1 : Presentation :=
  { mail := "gabe@mnrva.dev"
  , title := "Hey, I’m Gabe 👋"
  , description := "I\x27m a recent *CS graduate* with professional *full stack development* experience.     You will often find me working with *Go, NodeJS and Python*. I love     to spend my time learning everything I can about emerging technologies in *cloud computing* and     *API development*. When I\x27m not working, I play guitar and am an avid gamer."
  , socials := [githubSocial] }

/-- List-of-characters comparison used by the URL well-formedness check:
`listStartsWith pre cs` holds when `pre` is an initial segment of `cs`. -/
def listStartsWith : List Char → List Char → Bool
  | [], _ => true
  | _ :: _, [] => false
  | a :: pre, b :: rest => a == b && listStartsWith pre rest

/-- Modelled from the spec: the repository contains no URL validator, so
"syntactically valid URL" is read as the spec's words suggest: an `http`
or `https` scheme followed by a non-empty remainder, with no whitespace. -/
def isSyntacticallyValidURL (s : String) : Bool :=
  (listStartsWith "http://".data s.data && s.data.length > 7
    || listStartsWith "https://".data s.data && s.data.length > 8)
  && s.data.all (fun c => !(c == ' '))

/-- C1: for every color identifier in the supported enumeration the
resolver's lookup returns a non-empty style token, and any two lookups with
the same identifier return the same token; as a Lean function the resolver
is a pure function of its input and the constant table. -/
theorem textThemeColorTag_deterministic_nonempty :
    (∀ c ∈ supportedColorIdentifiers,
      ∃ t : String, objLookup MAP_COLOR_VARIANT_TO_TEXT c = some t ∧ t ≠ "") ∧
    (∀ c₁ c₂ : String, c₁ = c₂ →
      objLookup MAP_COLOR_VARIANT_TO_TEXT c₁ = objLookup MAP_COLOR_VARIANT_TO_TEXT c₂) := by
  constructor
  · intro c hc
    have h : c = "primary-blue" := by
      simpa [supportedColorIdentifiers, MAP_COLOR_VARIANT_TO_TEXT] using hc
    subst h
    exact ⟨"text-blue-500", by decide, by decide⟩
  · intro c₁ c₂ h
    rw [h]

/-- Closed instance of C1 at the supported identifier "primary-blue". -/
theorem textThemeColorTag_deterministic_nonempty_witness :
    ∃ t : String, objLookup MAP_COLOR_VARIANT_TO_TEXT "primary-blue" = some t ∧ t ≠ "" :=
  textThemeColorTag_deterministic_nonempty.1 "primary-blue" (by decide)

/-- C2: an identifier outside the supported enumeration looks up to an
absent value (`none`): no fallback token, no default and, in this total
embedding, no raised error. -/
theorem unmapped_color_lookup_absent (c : String)
    (h : c ∉ supportedColorIdentifiers) :
    objLookup MAP_COLOR_VARIANT_TO_TEXT c = none := by
  have h' : c ≠ "primary-blue" := by
    simpa [supportedColorIdentifiers, MAP_COLOR_VARIANT_TO_TEXT] using h
  have hb : ("primary-blue" == c) = false := by
    simpa [beq_eq_false_iff_ne] using Ne.symm h'
  simp [objLookup, MAP_COLOR_VARIANT_TO_TEXT, List.find?, hb]

/-- Closed instance of C2 at the unsupported identifier "magenta". -/
theorem unmapped_color_lookup_absent_witness :
    objLookup MAP_COLOR_VARIANT_TO_TEXT "magenta" = none :=
  unmapped_color_lookup_absent "magenta" (by decide)

/-- C3: the mapping table has an entry for every identifier in the
supported enumeration, the configured primary color is in that
enumeration, and hence the resolver's result is present (the absent
branch is unreachable for the configured primary). -/
theorem color_table_total_over_enumeration :
    (∀ c ∈ supportedColorIdentifiers,
      (objLookup MAP_COLOR_VARIANT_TO_TEXT c).isSome = true) ∧
    theme.colors.primary ∈ supportedColorIdentifiers ∧
    textThemeColorTag.isSome = true := by
  decide

/-- Closed instance of C3 at the supported identifier "primary-blue". -/
theorem color_table_total_over_enumeration_witness :
    (objLookup MAP_COLOR_VARIANT_TO_TEXT "primary-blue").isSome = true :=
  color_table_total_over_enumeration.1 "primary-blue" (by decide)

/-- C4: the resolver is exactly the lookup of the single configured color
identifier in the constant table — a pure function with no other input —
and it returns exactly one style token string. -/
theorem textThemeColorTag_single_input_single_token :
    textThemeColorTag = objLookup MAP_COLOR_VARIANT_TO_TEXT theme.colors.primary ∧
    ∃ t : String, textThemeColorTag = some t :=
  ⟨rfl, "text-blue-500", by decide⟩

/-- C5: with the table mapping "primary-blue" to "text-blue-500" and the
configured primary color "primary-blue", the resolver yields exactly
"text-blue-500". -/
theorem primary_blue_end_to_end :
    objLookup MAP_COLOR_VARIANT_TO_TEXT "primary-blue" = some "text-blue-500" ∧
    theme.colors.primary = "primary-blue" ∧
    textThemeColorTag = some "text-blue-500" := by
  decide

/-- C6: the slugs of the blog documents in the corpus are pairwise
distinct: the slug list has no duplicate, and any two distinct documents
have different slugs. -/
theorem blog_slugs_pairwise_distinct :
    (allBlogPosts.map (fun p => p.slug)).Nodup ∧
    ∀ p ∈ allBlogPosts, ∀ q ∈ allBlogPosts, p ≠ q → p.slug ≠ q.slug := by
  decide

/-- Closed instance of C6 at the two documents of the corpus. -/
theorem blog_slugs_pairwise_distinct_witness :
    lambdaGoPost.slug ≠ triviaApiPost.slug :=
  blog_slugs_pairwise_distinct.2 lambdaGoPost (by decide) triviaApiPost (by decide)
    (by decide)

/-- C7: filtering the two-document corpus by `isPublish = true` returns
exactly the documents whose flag is true — here both documents —
membership in the filtered list being equivalent to membership in the
corpus together with a true flag. -/
theorem publish_filter_exact :
    allBlogPosts.filter (fun p => p.isPublish) = allBlogPosts ∧
    (∀ p : BlogPost, p ∈ allBlogPosts.filter (fun p => p.isPublish) ↔
      p ∈ allBlogPosts ∧ p.isPublish = true) ∧
    (allBlogPosts.filter (fun p => p.isPublish)).map (fun p => p.slug) =
      ["creating-serverless-lambda-go", "stateless-containerized-trivia-api-go"] := by
  refine ⟨by decide, ?_, by decide⟩
  intro p
  simp [List.mem_filter]

/-- Closed instance of C7 at the first document of the corpus. -/
theorem publish_filter_exact_witness :
    lambdaGoPost ∈ allBlogPosts.filter (fun p => p.isPublish) ↔
      lambdaGoPost ∈ allBlogPosts ∧ lambdaGoPost.isPublish = true :=
  publish_filter_exact.2.1 lambdaGoPost

/-- C8: every project record has a non-empty technology-tag list whose
entries are all non-empty, and a non-empty title and link. -/
theorem projects_fields_wellformed :
    ∀ p ∈ projects,
      p.techs ≠ [] ∧ (∀ t ∈ p.techs, t ≠ "") ∧ p.title ≠ "" ∧ p.link ≠ "" := by
  decide

/-- Closed instance of C8 at the first project record. -/
theorem projects_fields_wellformed_witness :
    massflipProject.techs ≠ [] ∧ (∀ t ∈ massflipProject.techs, t ≠ "") ∧
    massflipProject.title ≠ "" ∧ massflipProject.link ≠ "" :=
  projects_fields_wellformed massflipProject (by decide)

/-- C9: in both versions of the presentation record, every social link
has a non-empty label and a syntactically valid URL, and the contact
address and headline are present and non-empty. -/
theorem presentation_contact_socials_wellformed :
    (∀ s ∈ presentation_v0.socials,
      s.label ≠ "" ∧ isSyntacticallyValidURL s.link = true) ∧
    (∀ s ∈ presentation_v1.socials,
      s.label ≠ "" ∧ isSyntacticallyValidURL s.link = true) ∧
    presentation_v0.mail ≠ "" ∧ presentation_v0.title ≠ "" ∧
    presentation_v1.mail ≠ "" ∧ presentation_v1.title ≠ "" := by
  decide

/-- Closed instance of C9 at the single social link of the profile. -/
theorem presentation_contact_socials_wellformed_witness :
    githubSocial.label ≠ "" ∧ isSyntacticallyValidURL githubSocial.link = true :=
  presentation_contact_socials_wellformed.1 githubSocial (by decide)

/-- C10: the two presentation versions agree on the mail, title and
socials fields, both leave the optional profile image absent, and differ
in the description; no project record sets the optional coming-soon
flag. -/
theorem presentation_versions_agree_optionals_absent :
    presentation_v0.mail = presentation_v1.mail ∧
    presentation_v0.title = presentation_v1.title ∧
    presentation_v0.socials = presentation_v1.socials ∧
    presentation_v0.profile = none ∧
    presentation_v1.profile = none ∧
    presentation_v0.description ≠ presentation_v1.description ∧
    ∀ p ∈ projects, p.isComingSoon = none := by
  decide

/-- Closed instance of C10 at the first project record. -/
theorem presentation_versions_agree_optionals_absent_witness :
    massflipProject.isComingSoon = none :=
  presentation_versions_agree_optionals_absent.2.2.2.2.2.2 massflipProject (by decide)
